import Mathlib

/-!
# Verification of the bento-golang-sdk client library

Shallow embedding of the Bento Go SDK (package `bento`) in Lean 4, together
with theorems settling the specification claims about it.

Modelling conventions:
* Go errors are modelled by the inductive `GoError`.  A sentinel error value
  (`errors.New` at package level) is `GoError.sentinel`, an error produced by
  `fmt.Errorf("%w: ...", sentinel, ...)` is `GoError.wrapped` carrying the
  sentinel and the formatted detail, a plain non-sentinel error is
  `GoError.msg`, and the two context errors are dedicated constructors.
  `errors.Is` matching against a sentinel is `GoError.is`.
* `context.Context` is modelled by `Ctx`, carrying the value of `ctx.Err()`.
* The pluggable HTTP transport (`HTTPDoer`) is a function argument
  `tr : Request → Except GoError (Response β)`, where `β` is the shape the
  operation decodes the response body into; `Response.decodeBody` is the
  outcome of `json.Decode` on the body.  Every operation returns its Go
  result paired with a `Bool` that is `true` exactly on the paths where the
  Go code reaches `c.httpClient.Do` (i.e. where the transport is invoked).
* `time.Duration` is an `Int` counting nanoseconds, as in Go.
* Dynamic JSON maps (`map[string]interface{}`) are association lists of
  JSON-encoded strings; no claim inspects them.
-/

/-- Package-level sentinel error values of `errors.go`. -/
inductive Sentinel where
  | invalidConfig
  | invalidEmail
  | invalidIPAddress
  | invalidRequest
  | apiResponse
  | invalidName
  | invalidSegmentID
  | invalidContent
  | invalidTags
  | invalidBatchSize
  | invalidKeyLength
  deriving DecidableEq, Repr

/-- Go `error` values as this SDK produces and propagates them.
`parseFail e` is `fmt.Errorf("failed to parse response: %w", e)`. -/
inductive GoError where
  | sentinel (s : Sentinel)
  | wrapped (s : Sentinel) (detail : String)
  | msg (m : String)
  | parseFail (e : GoError)
  | ctxCanceled
  | ctxDeadlineExceeded
  deriving DecidableEq, Repr

/-- `errors.Is err sentinel`: the error is the sentinel or wraps it
(recursing through `%w` chains). -/
def GoError.is (e : GoError) (s : Sentinel) : Bool :=
  match e with
  | .sentinel t => t = s
  | .wrapped t _ => t = s
  | .parseFail inner => inner.is s
  | _ => false

/-- `context.Context`, reduced to the observable the SDK reads: `ctx.Err()`. -/
structure Ctx where
  err : Option GoError
  deriving DecidableEq, Repr

/-- `Config` of the client (part_003 / types_test.go): credentials plus a
`time.Duration` timeout in nanoseconds. -/
structure Config where
  publishableKey : String
  secretKey : String
  siteUUID : String
  timeout : Int
  deriving DecidableEq, Repr

/-- `10 * time.Second` in nanoseconds. -/
def tenSeconds : Int := 10 * 1000000000

/-- `Client`: base URL plus the configuration pointer.  The HTTP transport is
passed to each operation as a function argument rather than stored. -/
structure Client where
  baseURL : String
  config : Config
  deriving DecidableEq, Repr

/-- `NewClient` of `src/unnamed/part_003`.  The Go function mutates the
caller's `*Config` in place (writing the default timeout) and stores that
same pointer in the client; the embedding returns the client together with
the caller's `Config` as it stands after the call. -/
def NewClient (config : Config) : Except GoError (Client × Config) :=
  if config.publishableKey == "" || config.secretKey == "" || config.siteUUID == "" then
    .error (.sentinel .invalidConfig)
  else if config.timeout < 0 then
    .error (.msg "timeout must be non-negative")
  else
    let cfg := if config.timeout == 0 then { config with timeout := tenSeconds } else config
    .ok ({ baseURL := "https://app.bentonow.com/api/v1", config := cfg }, cfg)

/-- `strings.Trim(s, "\"")`: remove all leading and trailing `"` characters. -/
def trimQuotes (s : String) : String :=
  String.mk (((s.toList.dropWhile (fun c => c = '"')).reverse.dropWhile
    (fun c => c = '"')).reverse)

/-- The names of the empty required fields, in declaration order
(`missingFields` of the validated `NewClient` in types_test.go). -/
def missingFields (config : Config) : List String :=
  (if config.publishableKey == "" then ["PublishableKey"] else []) ++
  (if config.secretKey == "" then ["SecretKey"] else []) ++
  (if config.siteUUID == "" then ["SiteUUID"] else [])

/-- The validated variant of `NewClient` (types_test.go lines 853-898): also
rejects credentials whose quote-trimmed length is outside 28-36. -/
def NewClientValidated (config : Config) : Except GoError (Client × Config) :=
  if !(missingFields config).isEmpty then
    .error (.wrapped .invalidConfig (String.intercalate ", " (missingFields config)))
  else if (trimQuotes config.publishableKey).length < 28 ||
      (trimQuotes config.publishableKey).length > 36 then
    .error (.wrapped .invalidKeyLength
      ("PublishableKey must be between 28 and 36 characters (got " ++
        toString (trimQuotes config.publishableKey).length ++ ")"))
  else if (trimQuotes config.secretKey).length < 28 ||
      (trimQuotes config.secretKey).length > 36 then
    .error (.wrapped .invalidKeyLength
      ("SecretKey must be between 28 and 36 characters (got " ++
        toString (trimQuotes config.secretKey).length ++ ")"))
  else if (trimQuotes config.siteUUID).length < 28 ||
      (trimQuotes config.siteUUID).length > 36 then
    .error (.wrapped .invalidKeyLength
      ("SiteUUID must be between 28 and 36 characters (got " ++
        toString (trimQuotes config.siteUUID).length ++ ")"))
  else if config.timeout < 0 then
    .error (.msg "timeout must be non-negative")
  else
    let cfg := if config.timeout == 0 then { config with timeout := tenSeconds } else config
    .ok ({ baseURL := "https://app.bentonow.com/api/v1", config := cfg }, cfg)

example : (NewClient { publishableKey := "p", secretKey := "s", siteUUID := "u", timeout := 0 }).isOk = true := rfl

example : NewClient { publishableKey := "", secretKey := "s", siteUUID := "u", timeout := 0 } = .error (.sentinel .invalidConfig) := rfl

/-- An outgoing `http.Request`, reduced to the parts the SDK writes: method,
URL path, query parameters (`url.Values`, in `Add` order), headers (with
`Header.Set` replace semantics), basic-auth credentials, and the context. -/
structure Request where
  method : String
  url : String
  query : List (String × String)
  headers : List (String × String)
  basicAuth : Option (String × String)
  ctx : Ctx
  body : Option String
  deriving DecidableEq, Repr

/-- `http.NewRequestWithContext ctx method url body` for the fixed methods
and URLs the SDK uses (its error path is unreachable for them). -/
def newRequest (ctx : Ctx) (method : String) (url : String)
    (body : Option String) : Request :=
  { method := method, url := url, query := [], headers := [],
    basicAuth := none, ctx := ctx, body := body }

/-- `req.Header.Set k v`: replace any existing value of the key. -/
def setHeader (req : Request) (k v : String) : Request :=
  { req with headers := (req.headers.filter (fun p => p.1 != k)) ++ [(k, v)] }

/-- `req.URL.Query().Add k v` followed by re-encoding: append the pair. -/
def addQuery (req : Request) (k v : String) : Request :=
  { req with query := req.query ++ [(k, v)] }

/-- The header rewriting of `Client.do` (src/unnamed/part_003 lines 61-68):
basic auth, Accept/Content-Type, User-Agent, and the site_uuid parameter. -/
def prepareRequest (c : Client) (req : Request) : Request :=
  let r1 := { req with basicAuth := some (c.config.publishableKey, c.config.secretKey) }
  let r2 := setHeader r1 "Accept" "application/json"
  let r3 := setHeader r2 "Content-Type" "application/json"
  let r4 := setHeader r3 "User-Agent" ("bento-go-" ++ c.config.siteUUID)
  addQuery r4 "site_uuid" c.config.siteUUID

/-- An `*http.Response` as the operations consume it: the status code and the
outcome of decoding the body into the shape `β` the operation expects. -/
structure Response (β : Type) where
  status : Nat
  decodeBody : Except GoError β

/-- The pluggable transport (`HTTPDoer.Do`), specialised to the body shape
the calling operation decodes. -/
def Transport (β : Type) : Type := Request → Except GoError (Response β)

/-- `Client.do` of src/unnamed/part_003: return `ctx.Err()` verbatim when the
context is already cancelled (without touching the transport), otherwise
dispatch the prepared request.  The `Bool` records whether the transport was
invoked. -/
def Client.doRequest (c : Client) (tr : Transport β) (req : Request) :
    Except GoError (Response β) × Bool :=
  match req.ctx.err with
  | some e => (.error e, false)
  | none => (tr (prepareRequest c req), true)

/-- Splits a character list at its first `@`, if any. -/
def splitAtSign : List Char → Option (List Char × List Char)
  | [] => none
  | c :: rest =>
    if c = '@' then some ([], rest)
    else match splitAtSign rest with
      | none => none
      | some (lp, dom) => some (c :: lp, dom)

/-- Characters of an unquoted atom local part or domain. -/
def isEmailChar (c : Char) : Bool :=
  c.isAlphanum || c = '.' || c = '-' || c = '_' || c = '+'

/-- Model of the external Go standard-library predicate
"`mail.ParseAddress s` succeeds": the string splits as `localpart@domain`
with nonempty atom local part and domain.  Simplified to unquoted atom
addresses, which is exact for the claim classes (no `@`, empty,
whitespace-only strings all fail, plain addresses succeed). -/
def parseAddressOk (s : String) : Bool :=
  match splitAtSign s.toList with
  | none => false
  | some (lp, dom) =>
    !lp.isEmpty && !dom.isEmpty && lp.all isEmailChar && dom.all isEmailChar

/-- Model of the external Go standard-library predicate
"`net.ParseIP s` is non-nil": dotted-quad IPv4 or colon-bearing IPv6. -/
def parseIPOk (s : String) : Bool :=
  (match (s.splitOn ".").map String.toNat? with
   | [some a, some b, some c, some d] => a ≤ 255 && b ≤ 255 && c ≤ 255 && d ≤ 255
   | _ => false) ||
  (s.toList.contains ':' && s.toList.all (fun c => c.isDigit || c = ':' ||
    ('a' ≤ c && c ≤ 'f') || ('A' ≤ c && c ≤ 'F')))

example : parseAddressOk "test@example.com" = true := rfl
example : parseAddressOk "" = false := rfl
example : parseAddressOk "   " = false := rfl
example : parseAddressOk "no-at-sign" = false := rfl

/-- `CommandType` of types.go is a string type. -/
abbrev CommandType := String

def commandAddTag : CommandType := "add_tag"
def commandAddTagViaEvent : CommandType := "add_tag_via_event"
def commandRemoveTag : CommandType := "remove_tag"
def commandAddField : CommandType := "add_field"
def commandRemoveField : CommandType := "remove_field"
def commandSubscribe : CommandType := "subscribe"
def commandUnsubscribe : CommandType := "unsubscribe"
def commandChangeEmail : CommandType := "change_email"

/-- `EventData` of types.go; the `map[string]interface{}` fields are
association lists of JSON-encoded values. -/
structure EventData where
  type : String
  email : String
  fields : List (String × String)
  details : List (String × String)
  deriving DecidableEq, Repr

/-- Nested `Attributes` struct of `SubscriberData`. -/
structure SubscriberAttributes where
  uuid : String
  email : String
  fields : List (String × String)
  cachedTagIDs : List String
  unsubscribedAt : Option String
  navigationURL : String
  deriving DecidableEq, Repr

/-- `SubscriberData` of types.go: server-returned subscriber record. -/
structure SubscriberData where
  id : String
  type : String
  attributes : SubscriberAttributes
  deriving DecidableEq, Repr

/-- `SubscriberInput` of tags.go: caller-supplied subscriber payload. -/
structure SubscriberInput where
  email : String
  firstName : String
  lastName : String
  tags : List String
  removeTags : List String
  fields : List (String × String)
  deriving DecidableEq, Repr

/-- `CommandData` of types.go: one subscriber mutation instruction. -/
structure CommandData where
  command : CommandType
  email : String
  query : String
  deriving DecidableEq, Repr

/-- `EmailData` of types.go (`To`/`From` are `toAddr`/`fromAddr`: `to` and
`from` are Lean keywords). -/
structure EmailData where
  toAddr : String
  fromAddr : String
  subject : String
  htmlBody : String
  transactional : Bool
  personalizations : List (String × String)
  deriving DecidableEq, Repr

/-- Nested `Attributes` struct of `TagData`. -/
structure TagAttributes where
  name : String
  createdAt : String
  discardedAt : Option String
  siteID : Int
  deriving DecidableEq, Repr

/-- `TagData` of types.go: server-returned tag record. -/
structure TagData where
  id : String
  type : String
  attributes : TagAttributes
  deriving DecidableEq, Repr

/-- `ValidationData` of types.go: email-validation parameters. -/
structure ValidationData where
  emailAddress : String
  fullName : String
  userAgent : String
  ipAddress : String
  deriving DecidableEq, Repr

/-- `ValidationResponse` of types.go. -/
structure ValidationResponse where
  valid : Bool
  deriving DecidableEq, Repr

/-- The anonymous `struct { Results int; Failed int }` envelope the batch
operations decode (`{"results": N, "failed": N}`).  Go `int` is `Int`. -/
structure BatchEnvelope where
  results : Int
  failed : Int
  deriving DecidableEq, Repr

/-- First error produced by a Go `for` loop that returns on the first
failing element, `none` when every element passes. -/
def firstError (f : α → Option GoError) : List α → Option GoError
  | [] => none
  | x :: xs =>
    match f x with
    | some e => some e
    | none => firstError f xs

/-- The non-2xx branch `fmt.Errorf("%w: %d", ErrAPIResponse, resp.StatusCode)`. -/
def apiStatusError (status : Nat) : GoError :=
  .wrapped .apiResponse (toString status)

/-- Per-event validation of `TrackEvent` (src/unnamed/part_006 lines 106-113),
in source order: email parse, then nonempty type. -/
def validateEvent (ev : EventData) : Option GoError :=
  if !parseAddressOk ev.email then some (.wrapped .invalidEmail ev.email)
  else if ev.type == "" then some (.wrapped .invalidRequest "event type is required")
  else none

/-- `Client.TrackEvent` (src/unnamed/part_006 lines 100-151).  The JSON body
`{"events": [...]}` is not inspected by any claim and is marked by its
envelope key. -/
def Client.trackEvent (c : Client) (tr : Transport BatchEnvelope) (ctx : Ctx)
    (events : List EventData) : Except GoError Unit × Bool :=
  if events.length == 0 then (.error (.sentinel .invalidRequest), false)
  else match firstError validateEvent events with
  | some e => (.error e, false)
  | none =>
    let req := newRequest ctx "POST" (c.baseURL ++ "/batch/events") (some "events")
    match c.doRequest tr req with
    | (.error e, b) => (.error e, b)
    | (.ok resp, b) =>
      if resp.status != 200 then (.error (apiStatusError resp.status), b)
      else match resp.decodeBody with
      | .error e => (.error e, b)
      | .ok env =>
        if env.failed > 0 then
          (.error (.msg ("event tracking partially failed: " ++ toString env.results ++
            " succeeded, " ++ toString env.failed ++ " failed")), b)
        else (.ok (), b)

/-- Per-subscriber validation of `ImportSubscribers` (tags.go lines 188-192). -/
def validateSubscriberInput (sub : SubscriberInput) : Option GoError :=
  if !parseAddressOk sub.email then some (.wrapped .invalidEmail sub.email) else none

/-- `Client.ImportSubscribers` (tags.go lines 182-230). -/
def Client.importSubscribers (c : Client) (tr : Transport BatchEnvelope) (ctx : Ctx)
    (subscribers : List SubscriberInput) : Except GoError Unit × Bool :=
  if subscribers.length == 0 then (.error (.sentinel .invalidRequest), false)
  else match firstError validateSubscriberInput subscribers with
  | some e => (.error e, false)
  | none =>
    let req := newRequest ctx "POST" (c.baseURL ++ "/batch/subscribers") (some "subscribers")
    match c.doRequest tr req with
    | (.error e, b) => (.error e, b)
    | (.ok resp, b) =>
      if resp.status != 200 then (.error (apiStatusError resp.status), b)
      else match resp.decodeBody with
      | .error e => (.error e, b)
      | .ok env =>
        if env.failed > 0 then
          (.error (.msg ("import partially failed: " ++ toString env.results ++
            " succeeded, " ++ toString env.failed ++ " failed")), b)
        else (.ok (), b)

/-- `validateCommandType` (src/unnamed/part_006 lines 71-87): membership in
the closed set of 8 command kinds. -/
def validateCommandType (cmd : CommandType) : Option GoError :=
  if cmd == commandAddTag || cmd == commandAddTagViaEvent || cmd == commandRemoveTag ||
      cmd == commandAddField || cmd == commandRemoveField || cmd == commandSubscribe ||
      cmd == commandUnsubscribe || cmd == commandChangeEmail then
    none
  else
    some (.wrapped .invalidRequest ("invalid command type: " ++ cmd))

/-- Per-command validation of `SubscriberCommand` (part_006 lines 19-29),
in source order: email parse, nonempty query, command type. -/
def validateCommand (cmd : CommandData) : Option GoError :=
  if !parseAddressOk cmd.email then some (.wrapped .invalidEmail cmd.email)
  else if cmd.query == "" then some (.wrapped .invalidRequest "command query is required")
  else validateCommandType cmd.command

/-- `Client.SubscriberCommand` (src/unnamed/part_006 lines 13-68). -/
def Client.subscriberCommand (c : Client) (tr : Transport BatchEnvelope) (ctx : Ctx)
    (commands : List CommandData) : Except GoError Unit × Bool :=
  if commands.length == 0 then (.error (.sentinel .invalidRequest), false)
  else match firstError validateCommand commands with
  | some e => (.error e, false)
  | none =>
    let req := newRequest ctx "POST" (c.baseURL ++ "/fetch/commands") (some "command")
    match c.doRequest tr req with
    | (.error e, b) => (.error e, b)
    | (.ok resp, b) =>
      if resp.status != 200 then (.error (apiStatusError resp.status), b)
      else match resp.decodeBody with
      | .error e => (.error e, b)
      | .ok env =>
        if env.failed > 0 then
          (.error (.msg ("command execution partially failed: " ++ toString env.results ++
            " succeeded, " ++ toString env.failed ++ " failed")), b)
        else (.ok (), b)

/-- `Client.FindSubscriber` (tags.go lines 101-139): envelope `{"data": ...}`
decoded into `SubscriberData`; an empty decoded id is a not-found error. -/
def Client.findSubscriber (c : Client) (tr : Transport SubscriberData) (ctx : Ctx)
    (email : String) : Except GoError SubscriberData × Bool :=
  if !parseAddressOk email then (.error (.wrapped .invalidEmail email), false)
  else
    let req := addQuery (newRequest ctx "GET" (c.baseURL ++ "/fetch/subscribers") none)
      "email" email
    match c.doRequest tr req with
    | (.error e, b) => (.error e, b)
    | (.ok resp, b) =>
      if resp.status != 200 then (.error (apiStatusError resp.status), b)
      else match resp.decodeBody with
      | .error e => (.error (.parseFail e), b)
      | .ok data =>
        if data.id == "" then (.error (.msg ("subscriber not found: " ++ email)), b)
        else (.ok data, b)

/-- `Client.CreateSubscriber` (tags.go lines 142-179). -/
def Client.createSubscriber (c : Client) (tr : Transport SubscriberData) (ctx : Ctx)
    (input : SubscriberInput) : Except GoError SubscriberData × Bool :=
  if !parseAddressOk input.email then (.error (.wrapped .invalidEmail input.email), false)
  else
    let req := newRequest ctx "POST" (c.baseURL ++ "/fetch/subscribers") (some "subscriber")
    match c.doRequest tr req with
    | (.error e, b) => (.error e, b)
    | (.ok resp, b) =>
      if resp.status != 200 && resp.status != 201 then (.error (apiStatusError resp.status), b)
      else match resp.decodeBody with
      | .error e => (.error (.parseFail e), b)
      | .ok data => (.ok data, b)

/-- Per-email validation of `CreateEmails` (email.go lines 23-36), in source
order: recipient, sender, subject, html body. -/
def validateEmailData (email : EmailData) : Option GoError :=
  if !parseAddressOk email.toAddr then
    some (.wrapped .invalidEmail ("invalid recipient email: " ++ email.toAddr))
  else if !parseAddressOk email.fromAddr then
    some (.wrapped .invalidEmail ("invalid sender email: " ++ email.fromAddr))
  else if email.subject == "" then some (.wrapped .invalidRequest "subject is required")
  else if email.htmlBody == "" then some (.wrapped .invalidRequest "html_body is required")
  else none

/-- `Client.CreateEmails` (email.go lines 13-69).  The Go function decodes
the body into `struct { Results int }`: decoding a `{"results", "failed"}`
envelope succeeds and only the `results` field is read, embedded here as
projecting `.results` from the decoded `BatchEnvelope`. -/
def Client.createEmails (c : Client) (tr : Transport BatchEnvelope) (ctx : Ctx)
    (emails : List EmailData) : Except GoError Int × Bool :=
  if emails.length == 0 then
    (.error (.wrapped .invalidRequest "no emails provided"), false)
  else if emails.length > 60 then
    (.error (.wrapped .invalidRequest "maximum of 60 emails allowed per request"), false)
  else match firstError validateEmailData emails with
  | some e => (.error e, false)
  | none =>
    let req := newRequest ctx "POST" (c.baseURL ++ "/batch/emails") (some "emails")
    match c.doRequest tr req with
    | (.error e, b) => (.error e, b)
    | (.ok resp, b) =>
      if resp.status != 200 then (.error (apiStatusError resp.status), b)
      else match resp.decodeBody with
      | .error e => (.error e, b)
      | .ok env => (.ok env.results, b)

/-- `Client.ValidateEmail` (email.go lines 127-173). -/
def Client.validateEmail (c : Client) (tr : Transport ValidationResponse) (ctx : Ctx)
    (data : ValidationData) : Except GoError ValidationResponse × Bool :=
  if !parseAddressOk data.emailAddress then
    (.error (.wrapped .invalidEmail data.emailAddress), false)
  else if data.ipAddress != "" && !parseIPOk data.ipAddress then
    (.error (.wrapped .invalidIPAddress data.ipAddress), false)
  else
    let r0 := newRequest ctx "POST" (c.baseURL ++ "/experimental/validation") none
    let r1 := addQuery r0 "email" data.emailAddress
    let r2 := if data.fullName != "" then addQuery r1 "name" data.fullName else r1
    let r3 := if data.userAgent != "" then addQuery r2 "user_agent" data.userAgent else r2
    let r4 := if data.ipAddress != "" then addQuery r3 "ip" data.ipAddress else r3
    match c.doRequest tr r4 with
    | (.error e, b) => (.error e, b)
    | (.ok resp, b) =>
      if resp.status != 200 then (.error (apiStatusError resp.status), b)
      else match resp.decodeBody with
      | .error e => (.error (.parseFail e), b)
      | .ok result => (.ok result, b)

/-- `Client.GetTags` (tags.go lines 12-37): no client-side validation. -/
def Client.getTags (c : Client) (tr : Transport (List TagData)) (ctx : Ctx) :
    Except GoError (List TagData) × Bool :=
  let req := newRequest ctx "GET" (c.baseURL ++ "/fetch/tags") none
  match c.doRequest tr req with
  | (.error e, b) => (.error e, b)
  | (.ok resp, b) =>
    if resp.status != 200 then (.error (apiStatusError resp.status), b)
    else match resp.decodeBody with
    | .error e => (.error (.parseFail e), b)
    | .ok result => (.ok result, b)

/-- The malformed-email classes of the specification: empty, whitespace-only,
or lacking an `@`. -/
def malformedEmail (s : String) : Prop :=
  s = "" ∨ s.toList.all Char.isWhitespace = true ∨ '@' ∉ s.toList

/-- The closed set of 8 valid command kinds (keys of the `valid` map in
`validateCommandType`). -/
def validCommandTypes : List CommandType :=
  [commandAddTag, commandAddTagViaEvent, commandRemoveTag, commandAddField,
   commandRemoveField, commandSubscribe, commandUnsubscribe, commandChangeEmail]

/-- First value for a key in a header/query list (`http.Header.Get`). -/
def getValue (k : String) : List (String × String) → Option String
  | [] => none
  | (k1, v) :: rest => if k1 == k then some v else getValue k rest

/-! ### Concrete test fixtures (shared by witnesses and counterexamples) -/

def cfg0 : Config :=
  { publishableKey := "pc422f7e69255a4bf9c9fafcaac64b14b",
    secretKey := "s1803b8d410fd4ca3a7d1d1f5be6d3b65",
    siteUUID := "2103f23614d9877a6b4ee73d28a5c61d",
    timeout := tenSeconds }

def client0 : Client :=
  { baseURL := "https://app.bentonow.com/api/v1", config := cfg0 }

/-- A transport stub that only reports it was (wrongly) reached. -/
def trTag0 : Transport (List TagData) := fun _ => .error (.msg "transport stub called")

def trSub0 : Transport SubscriberData := fun _ => .error (.msg "transport stub called")

def trBatch0 : Transport BatchEnvelope := fun _ => .error (.msg "transport stub called")

def trVal0 : Transport ValidationResponse := fun _ => .error (.msg "transport stub called")

/-- A transport answering 200 with a partially-failed batch envelope. -/
def trBatchPartial : Transport BatchEnvelope := fun _ => .ok ⟨200, .ok ⟨2, 5⟩⟩

/-- A transport answering 200 with a fully-successful batch envelope. -/
def trBatchClean : Transport BatchEnvelope := fun _ => .ok ⟨200, .ok ⟨3, 0⟩⟩

def subFoundAttrs : SubscriberAttributes :=
  { uuid := "uuid-1", email := "test@example.com", fields := [],
    cachedTagIDs := [], unsubscribedAt := none, navigationURL := "" }

def subFound : SubscriberData :=
  { id := "sub-123", type := "visitors", attributes := subFoundAttrs }

def subEmptyAttrs : SubscriberAttributes :=
  { uuid := "", email := "", fields := [],
    cachedTagIDs := [], unsubscribedAt := none, navigationURL := "" }

def subEmptyId : SubscriberData :=
  { id := "", type := "", attributes := subEmptyAttrs }

def trSubEmptyId : Transport SubscriberData := fun _ => .ok ⟨200, .ok subEmptyId⟩

def trSubFound : Transport SubscriberData := fun _ => .ok ⟨200, .ok subFound⟩

def ctxLive : Ctx := { err := none }

def ctxCancelled : Ctx := { err := some .ctxCanceled }

def subOk : SubscriberInput :=
  { email := "test@example.com", firstName := "", lastName := "",
    tags := [], removeTags := [], fields := [] }

def evOk : EventData :=
  { type := "$completed_onboarding", email := "test@example.com",
    fields := [], details := [] }

def emailOk : EmailData :=
  { toAddr := "recipient@example.com", fromAddr := "sender@example.com",
    subject := "Test Subject", htmlBody := "<p>Test Content</p>",
    transactional := true, personalizations := [] }

def cmdOk : CommandData :=
  { command := commandAddTag, email := "test@example.com", query := "vip" }

def cmdBadType : CommandData :=
  { command := "invalid_type", email := "test@example.com", query := "vip" }

def vdOk : ValidationData :=
  { emailAddress := "test@example.com", fullName := "", userAgent := "", ipAddress := "" }

def subNoAt : SubscriberInput := { subOk with email := "no-at-sign" }

def evNoAt : EventData := { evOk with email := "no-at-sign" }

def emailNoAt : EmailData := { emailOk with toAddr := "no-at-sign" }

def cmdNoAt : CommandData := { cmdOk with email := "no-at-sign" }

def vdNoAt : ValidationData := { vdOk with emailAddress := "no-at-sign" }

/-- 61 individually valid emails (one past the cap). -/
def emails61 : List EmailData := List.replicate 61 emailOk

/-- 60 individually valid emails (exactly the cap). -/
def emails60 : List EmailData := List.replicate 60 emailOk

def cfgEmpty : Config :=
  { publishableKey := "", secretKey := "test-secret", siteUUID := "test-uuid", timeout := 0 }

def cfgNegative : Config :=
  { publishableKey := "test-key", secretKey := "test-secret", siteUUID := "test-uuid",
    timeout := -1 }

def cfgZero : Config :=
  { publishableKey := "test-key", secretKey := "test-secret", siteUUID := "test-uuid",
    timeout := 0 }

def cfgShort : Config := { cfg0 with publishableKey := "tooshort", timeout := 0 }

/-- A config whose publishable key is 37 characters long (35 letters wrapped
in literal double quotes), so its quote-trimmed length is 35. -/
def cfgQuoted : Config :=
  { cfg0 with publishableKey := "\"aaaaaaaaaaaaaaaaaaaaaaaaaaaaaaaaaaa\"", timeout := 1 }

/-- A fixed request for exercising the execute primitive. -/
def req0 : Request := newRequest ctxLive "GET" "https://app.bentonow.com/api/v1/fetch/tags" none

example : cfgQuoted.publishableKey.length = 37 := rfl
example : (trimQuotes cfgQuoted.publishableKey).length = 35 := rfl

/-! ### Helper lemmas -/

theorem splitAtSign_eq_none (cs : List Char) (h : '@' ∉ cs) : splitAtSign cs = none := by
  induction cs with
  | nil => rfl
  | cons c rest ih =>
    have hc : ¬ c = '@' := fun hc => h (hc ▸ List.mem_cons_self c rest)
    have hr : splitAtSign rest = none := ih (fun hm => h (List.mem_cons_of_mem c hm))
    simp [splitAtSign, hc, hr]

theorem parseAddressOk_eq_false_of_malformed (s : String) (h : malformedEmail s) :
    parseAddressOk s = false := by
  have hnot : '@' ∉ s.toList := by
    rcases h with h | h | h
    · subst h; exact List.not_mem_nil '@'
    · intro hm
      have hw := List.all_eq_true.mp h '@' hm
      exact absurd hw (by decide)
    · exact h
  unfold parseAddressOk
  rw [splitAtSign_eq_none s.toList hnot]

theorem getValue_append (k : String) (xs ys : List (String × String)) :
    getValue k (xs ++ ys) =
      match getValue k xs with
      | some v => some v
      | none => getValue k ys := by
  induction xs with
  | nil => simp [getValue]
  | cons p rest ih =>
    obtain ⟨k1, v1⟩ := p
    simp only [List.cons_append, getValue]
    by_cases hk : (k1 == k) = true
    · simp [hk]
    · simp only [if_neg hk]
      rw [show rest.append ys = rest ++ ys from rfl] at *
      rw [ih]

theorem getValue_filter_ne (k k2 : String) (hne : ¬ k = k2)
    (xs : List (String × String)) :
    getValue k (xs.filter (fun p => p.1 != k2)) = getValue k xs := by
  induction xs with
  | nil => rfl
  | cons p rest ih =>
    obtain ⟨k1, v1⟩ := p
    by_cases hk : k1 = k
    · subst hk
      have : (k1 != k2) = true := by
        simp [bne_iff_ne]
        exact hne
      simp [List.filter, this, getValue, ih]
    · by_cases h2 : k1 = k2
      · subst h2
        have : (k1 != k1) = false := by simp
        simp only [List.filter, this]
        rw [ih]
        have : (k1 == k) = false := by
          simp [BEq.beq]
          exact hk
        simp [getValue, this]
      · have hf : (k1 != k2) = true := by
          simp [bne_iff_ne]
          exact h2
        have hg : (k1 == k) = false := by
          simp
          exact hk
        simp [List.filter, hf, getValue, hg, ih]

theorem getValue_filter_self (k : String) (xs : List (String × String)) :
    getValue k (xs.filter (fun p => p.1 != k)) = none := by
  induction xs with
  | nil => rfl
  | cons p rest ih =>
    obtain ⟨k1, v1⟩ := p
    by_cases hk : k1 = k
    · subst hk
      have : (k1 != k1) = false := by simp
      simp [List.filter, this, ih]
    · have hf : (k1 != k) = true := by
        simp [bne_iff_ne]
        exact hk
      have hg : (k1 == k) = false := by
        simp
        exact hk
      simp [List.filter, hf, getValue, hg, ih]

theorem getValue_setHeader_self (r : Request) (k v : String) :
    getValue k (setHeader r k v).headers = some v := by
  unfold setHeader
  rw [getValue_append, getValue_filter_self]
  simp [getValue]

theorem getValue_setHeader_ne (r : Request) (k k2 v2 : String) (hne : ¬ k = k2) :
    getValue k (setHeader r k2 v2).headers = getValue k r.headers := by
  unfold setHeader
  rw [getValue_append, getValue_filter_ne k k2 hne]
  cases hg : getValue k r.headers with
  | some v => simp
  | none =>
    have : (k2 == k) = false := by
      simp
      exact fun he => hne he.symm
    simp [getValue, this]

theorem validateCommandType_eq_none (cmd : CommandType) (h : cmd ∈ validCommandTypes) :
    validateCommandType cmd = none := by
  simp only [validCommandTypes, List.mem_cons, List.not_mem_nil, or_false] at h
  rcases h with h | h | h | h | h | h | h | h <;> subst h <;> rfl

theorem validateCommandType_eq_some (cmd : CommandType) (h : cmd ∉ validCommandTypes) :
    validateCommandType cmd =
      some (.wrapped .invalidRequest ("invalid command type: " ++ cmd)) := by
  simp only [validCommandTypes, List.mem_cons, List.not_mem_nil, or_false, not_or] at h
  obtain ⟨h1, h2, h3, h4, h5, h6, h7, h8⟩ := h
  simp [validateCommandType, h1, h2, h3, h4, h5, h6, h7, h8]

theorem firstError_validateCommand_of_badType (cmds : List CommandData)
    (hemail : ∀ cmd ∈ cmds, parseAddressOk cmd.email = true)
    (hquery : ∀ cmd ∈ cmds, cmd.query ≠ "")
    (hbad : ∃ cmd ∈ cmds, cmd.command ∉ validCommandTypes) :
    ∃ d, firstError validateCommand cmds = some (.wrapped .invalidRequest d) := by
  induction cmds with
  | nil =>
    obtain ⟨b, hb, _⟩ := hbad
    exact absurd hb (List.not_mem_nil b)
  | cons x rest ih =>
    have he := hemail x (List.mem_cons_self x rest)
    have hq := hquery x (List.mem_cons_self x rest)
    have hv : validateCommand x = validateCommandType x.command := by
      simp [validateCommand, he, hq]
    by_cases hmem : x.command ∈ validCommandTypes
    · have hnone : validateCommand x = none := by
        rw [hv, validateCommandType_eq_none _ hmem]
      obtain ⟨b, hb, hbt⟩ := hbad
      rcases List.mem_cons.mp hb with hbx | hbrest
      · exact absurd hmem (hbx ▸ hbt)
      · obtain ⟨d, hd⟩ := ih (fun y hy => hemail y (List.mem_cons_of_mem x hy))
          (fun y hy => hquery y (List.mem_cons_of_mem x hy)) ⟨b, hbrest, hbt⟩
        exact ⟨d, by simp [firstError, hnone, hd]⟩
    · refine ⟨"invalid command type: " ++ x.command, ?_⟩
      simp [firstError, hv, validateCommandType_eq_some _ hmem]

theorem headers_addQuery (r : Request) (k v : String) :
    (addQuery r k v).headers = r.headers := rfl

/-! ### Claim theorems -/

/-- C1: every client operation invoked with a context that is already
cancelled or expired returns that context's error verbatim (the very value
of `ctx.Err()`, matchable by identity) and the transport's `Do` is never
invoked.  Client-side input validation precedes the context check in the
source, so each operation's inputs are assumed to pass it (the claim speaks
of the request-dispatch stage). -/
theorem C1_precancelled_context_short_circuits (c : Client) (e : GoError) (ctx : Ctx)
    (hctx : ctx.err = some e)
    (trT : Transport (List TagData)) (trS : Transport SubscriberData)
    (trB : Transport BatchEnvelope) (trV : Transport ValidationResponse)
    (email : String) (hemail : parseAddressOk email = true)
    (sub : SubscriberInput) (hsub : parseAddressOk sub.email = true)
    (ev : EventData) (hev : validateEvent ev = none)
    (em : EmailData) (hem : validateEmailData em = none)
    (cmd : CommandData) (hcmd : validateCommand cmd = none)
    (vd : ValidationData) (hvd : parseAddressOk vd.emailAddress = true)
    (hip : vd.ipAddress = "") :
    c.getTags trT ctx = (.error e, false) ∧
    c.findSubscriber trS ctx email = (.error e, false) ∧
    c.createSubscriber trS ctx sub = (.error e, false) ∧
    c.importSubscribers trB ctx [sub] = (.error e, false) ∧
    c.trackEvent trB ctx [ev] = (.error e, false) ∧
    c.createEmails trB ctx [em] = (.error e, false) ∧
    c.subscriberCommand trB ctx [cmd] = (.error e, false) ∧
    c.validateEmail trV ctx vd = (.error e, false) := by
  refine ⟨?_, ?_, ?_, ?_, ?_, ?_, ?_, ?_⟩
  · simp [Client.getTags, newRequest, Client.doRequest, hctx]
  · simp [Client.findSubscriber, hemail, newRequest, addQuery, Client.doRequest, hctx]
  · simp [Client.createSubscriber, hsub, newRequest, Client.doRequest, hctx]
  · simp [Client.importSubscribers, firstError, validateSubscriberInput, hsub,
      newRequest, Client.doRequest, hctx]
  · simp [Client.trackEvent, firstError, hev, newRequest, Client.doRequest, hctx]
  · simp [Client.createEmails, firstError, hem, newRequest, Client.doRequest, hctx]
  · simp [Client.subscriberCommand, firstError, hcmd, newRequest, Client.doRequest, hctx]
  · by_cases hf : vd.fullName = "" <;> by_cases hu : vd.userAgent = "" <;>
      simp [Client.validateEmail, hvd, hip, hf, hu, newRequest, addQuery,
        Client.doRequest, hctx]

/-- C1 witness: with the cancelled context fixture and valid inputs, all
eight operations return `context.Canceled` without touching the stub
transport. -/
theorem C1_witness :
    client0.getTags trTag0 ctxCancelled = (.error .ctxCanceled, false) ∧
    client0.findSubscriber trSub0 ctxCancelled "test@example.com" = (.error .ctxCanceled, false) ∧
    client0.createSubscriber trSub0 ctxCancelled subOk = (.error .ctxCanceled, false) ∧
    client0.importSubscribers trBatch0 ctxCancelled [subOk] = (.error .ctxCanceled, false) ∧
    client0.trackEvent trBatch0 ctxCancelled [evOk] = (.error .ctxCanceled, false) ∧
    client0.createEmails trBatch0 ctxCancelled [emailOk] = (.error .ctxCanceled, false) ∧
    client0.subscriberCommand trBatch0 ctxCancelled [cmdOk] = (.error .ctxCanceled, false) ∧
    client0.validateEmail trVal0 ctxCancelled vdOk = (.error .ctxCanceled, false) :=
  C1_precancelled_context_short_circuits client0 .ctxCanceled ctxCancelled rfl
    trTag0 trSub0 trBatch0 trVal0
    "test@example.com" rfl subOk rfl evOk rfl emailOk rfl cmdOk rfl vdOk rfl rfl

/-- C7: a command list whose commands are otherwise valid but contain a
command type outside the closed set of 8 kinds fails with an
`ErrInvalidRequest`-wrapped error before any network call, and each of the
8 valid kinds passes `validateCommandType`. -/
theorem C7_command_type_closed_set :
    (∀ (c : Client) (tr : Transport BatchEnvelope) (ctx : Ctx) (cmds : List CommandData),
      (∀ cmd ∈ cmds, parseAddressOk cmd.email = true) →
      (∀ cmd ∈ cmds, cmd.query ≠ "") →
      (∃ cmd ∈ cmds, cmd.command ∉ validCommandTypes) →
      ∃ d, c.subscriberCommand tr ctx cmds = (.error (.wrapped .invalidRequest d), false)) ∧
    (∀ cmd : CommandType, cmd ∈ validCommandTypes → validateCommandType cmd = none) := by
  constructor
  · intro c tr ctx cmds hemail hquery hbad
    obtain ⟨d, hd⟩ := firstError_validateCommand_of_badType cmds hemail hquery hbad
    refine ⟨d, ?_⟩
    cases cmds with
    | nil =>
      obtain ⟨b, hb, _⟩ := hbad
      exact absurd hb (List.not_mem_nil b)
    | cons x xs => simp [Client.subscriberCommand, hd]
  · exact validateCommandType_eq_none

/-- C7 witness: a concrete unknown command type is rejected without
dispatch, and `add_tag` passes the type check. -/
theorem C7_witness :
    (∃ d, client0.subscriberCommand trBatch0 ctxLive [cmdBadType] =
      (.error (.wrapped .invalidRequest d), false)) ∧
    validateCommandType commandAddTag = none :=
  ⟨C7_command_type_closed_set.1 client0 trBatch0 ctxLive [cmdBadType]
      (by decide) (by decide) ⟨cmdBadType, List.mem_cons_self _ _, by decide⟩,
    C7_command_type_closed_set.2 commandAddTag (List.mem_cons_self _ _)⟩

/-- C8: every request executed through the shared execute primitive with a
non-cancelled context is handed to the transport exactly as prepared, and
the prepared request carries basic auth (publishable key / secret key),
Accept and Content-Type set to application/json, a User-Agent equal to
"bento-go-" followed by the site identifier (hence containing it), and a
site_uuid query parameter appended with the configured site identifier. -/
theorem C8_execute_primitive_headers (c : Client) {β : Type} (tr : Transport β)
    (req : Request) (h : req.ctx.err = none) :
    c.doRequest tr req = (tr (prepareRequest c req), true) ∧
    (prepareRequest c req).basicAuth = some (c.config.publishableKey, c.config.secretKey) ∧
    getValue "Accept" (prepareRequest c req).headers = some "application/json" ∧
    getValue "Content-Type" (prepareRequest c req).headers = some "application/json" ∧
    getValue "User-Agent" (prepareRequest c req).headers =
      some ("bento-go-" ++ c.config.siteUUID) ∧
    (prepareRequest c req).query = req.query ++ [("site_uuid", c.config.siteUUID)] := by
  refine ⟨?_, rfl, ?_, ?_, ?_, rfl⟩
  · simp [Client.doRequest, h]
  · unfold prepareRequest
    rw [headers_addQuery, getValue_setHeader_ne _ _ _ _ (by decide),
      getValue_setHeader_ne _ _ _ _ (by decide), getValue_setHeader_self]
  · unfold prepareRequest
    rw [headers_addQuery, getValue_setHeader_ne _ _ _ _ (by decide),
      getValue_setHeader_self]
  · unfold prepareRequest
    rw [headers_addQuery, getValue_setHeader_self]

/-- C8 witness: the fixture request prepared by the fixture client carries
all the required authentication material. -/
theorem C8_witness :
    client0.doRequest trTag0 req0 = (trTag0 (prepareRequest client0 req0), true) ∧
    (prepareRequest client0 req0).basicAuth = some (cfg0.publishableKey, cfg0.secretKey) ∧
    getValue "Accept" (prepareRequest client0 req0).headers = some "application/json" ∧
    getValue "Content-Type" (prepareRequest client0 req0).headers = some "application/json" ∧
    getValue "User-Agent" (prepareRequest client0 req0).headers =
      some ("bento-go-" ++ cfg0.siteUUID) ∧
    (prepareRequest client0 req0).query = req0.query ++ [("site_uuid", cfg0.siteUUID)] :=
  C8_execute_primitive_headers client0 trTag0 req0 rfl

/-- C5: a malformed email string (empty, whitespace-only, or lacking an @)
passed to any email-accepting operation makes that operation fail with the
`ErrInvalidEmail`-wrapped error without the transport ever being invoked. -/
theorem C5_malformed_email_rejected (c : Client) (s : String) (hmal : malformedEmail s)
    (trS : Transport SubscriberData) (trB : Transport BatchEnvelope)
    (trV : Transport ValidationResponse) (ctx : Ctx)
    (sub : SubscriberInput) (hsub : sub.email = s)
    (ev : EventData) (hev : ev.email = s)
    (em : EmailData) (hem : em.toAddr = s)
    (cmd : CommandData) (hcmd : cmd.email = s)
    (vd : ValidationData) (hvd : vd.emailAddress = s) :
    c.findSubscriber trS ctx s = (.error (.wrapped .invalidEmail s), false) ∧
    c.createSubscriber trS ctx sub = (.error (.wrapped .invalidEmail s), false) ∧
    c.importSubscribers trB ctx [sub] = (.error (.wrapped .invalidEmail s), false) ∧
    c.trackEvent trB ctx [ev] = (.error (.wrapped .invalidEmail s), false) ∧
    c.createEmails trB ctx [em] =
      (.error (.wrapped .invalidEmail ("invalid recipient email: " ++ s)), false) ∧
    c.subscriberCommand trB ctx [cmd] = (.error (.wrapped .invalidEmail s), false) ∧
    c.validateEmail trV ctx vd = (.error (.wrapped .invalidEmail s), false) := by
  have hp : parseAddressOk s = false := parseAddressOk_eq_false_of_malformed s hmal
  refine ⟨?_, ?_, ?_, ?_, ?_, ?_, ?_⟩
  · simp [Client.findSubscriber, hp]
  · simp [Client.createSubscriber, hsub, hp]
  · simp [Client.importSubscribers, firstError, validateSubscriberInput, hsub, hp]
  · simp [Client.trackEvent, firstError, validateEvent, hev, hp]
  · simp [Client.createEmails, firstError, validateEmailData, hem, hp]
  · simp [Client.subscriberCommand, firstError, validateCommand, hcmd, hp]
  · simp [Client.validateEmail, hvd, hp]

/-- C5 witness: the concrete at-sign-free string "no-at-sign" is rejected by
all seven email-accepting operations without dispatch. -/
theorem C5_witness :
    malformedEmail "no-at-sign" ∧
    (client0.findSubscriber trSub0 ctxLive "no-at-sign" =
        (.error (.wrapped .invalidEmail "no-at-sign"), false) ∧
      client0.createSubscriber trSub0 ctxLive subNoAt =
        (.error (.wrapped .invalidEmail "no-at-sign"), false) ∧
      client0.importSubscribers trBatch0 ctxLive [subNoAt] =
        (.error (.wrapped .invalidEmail "no-at-sign"), false) ∧
      client0.trackEvent trBatch0 ctxLive [evNoAt] =
        (.error (.wrapped .invalidEmail "no-at-sign"), false) ∧
      client0.createEmails trBatch0 ctxLive [emailNoAt] =
        (.error (.wrapped .invalidEmail ("invalid recipient email: " ++ "no-at-sign")), false) ∧
      client0.subscriberCommand trBatch0 ctxLive [cmdNoAt] =
        (.error (.wrapped .invalidEmail "no-at-sign"), false) ∧
      client0.validateEmail trVal0 ctxLive vdNoAt =
        (.error (.wrapped .invalidEmail "no-at-sign"), false)) :=
  ⟨Or.inr (Or.inr (by decide)),
    C5_malformed_email_rejected client0 "no-at-sign" (Or.inr (Or.inr (by decide)))
      trSub0 trBatch0 trVal0 ctxLive subNoAt rfl evNoAt rfl emailNoAt rfl cmdNoAt rfl
      vdNoAt rfl⟩

/-- C2 (amended): `NewClient` fails with the `ErrInvalidConfig` sentinel when
any credential is empty (the validated variant wraps the same sentinel);
with all credentials present it fails with the plain
"timeout must be non-negative" error when the timeout is negative; the
validated variant fails with an `ErrInvalidKeyLength`-wrapped error when any
credential's length measured after trimming surrounding double-quote
characters falls outside 28-36; and with all three credentials present and a
zero timeout, construction succeeds with the timeout normalized to 10
seconds. -/
theorem C2_newclient_validation :
    (∀ config : Config,
      (config.publishableKey = "" ∨ config.secretKey = "" ∨ config.siteUUID = "") →
      NewClient config = .error (.sentinel .invalidConfig) ∧
      (∃ d, NewClientValidated config = .error (.wrapped .invalidConfig d))) ∧
    (∀ config : Config, config.publishableKey ≠ "" → config.secretKey ≠ "" →
      config.siteUUID ≠ "" → config.timeout < 0 →
      NewClient config = .error (.msg "timeout must be non-negative")) ∧
    (∀ config : Config, config.publishableKey ≠ "" → config.secretKey ≠ "" →
      config.siteUUID ≠ "" →
      (((trimQuotes config.publishableKey).length < 28 ∨
          (trimQuotes config.publishableKey).length > 36) ∨
        ((trimQuotes config.secretKey).length < 28 ∨
          (trimQuotes config.secretKey).length > 36) ∨
        ((trimQuotes config.siteUUID).length < 28 ∨
          (trimQuotes config.siteUUID).length > 36)) →
      ∃ d, NewClientValidated config = .error (.wrapped .invalidKeyLength d)) ∧
    (∀ config : Config, config.publishableKey ≠ "" → config.secretKey ≠ "" →
      config.siteUUID ≠ "" → config.timeout = 0 →
      ∃ cl cfg, NewClient config = .ok (cl, cfg) ∧ cfg.timeout = tenSeconds) := by
  refine ⟨?_, ?_, ?_, ?_⟩
  · intro config h
    constructor
    · rcases h with h | h | h <;> simp [NewClient, h]
    · refine ⟨String.intercalate ", " (missingFields config), ?_⟩
      have hne : (missingFields config).isEmpty = false := by
        rcases h with h | h | h <;> simp [missingFields, h]
      simp [NewClientValidated, hne]
  · intro config hpk hsk hsu hneg
    simp [NewClient, hpk, hsk, hsu, hneg]
  · intro config hpk hsk hsu hband
    have hMF : missingFields config = [] := by simp [missingFields, hpk, hsk, hsu]
    by_cases h1 : ((trimQuotes config.publishableKey).length < 28 ∨
        (trimQuotes config.publishableKey).length > 36)
    · refine ⟨"PublishableKey must be between 28 and 36 characters (got " ++
        toString (trimQuotes config.publishableKey).length ++ ")", ?_⟩
      rcases h1 with ha | hb
      · simp [NewClientValidated, hMF, ha]
      · simp [NewClientValidated, hMF, hb]
    · obtain ⟨ha1, hb1⟩ := not_or.mp h1
      by_cases h2 : ((trimQuotes config.secretKey).length < 28 ∨
          (trimQuotes config.secretKey).length > 36)
      · refine ⟨"SecretKey must be between 28 and 36 characters (got " ++
          toString (trimQuotes config.secretKey).length ++ ")", ?_⟩
        rcases h2 with ha | hb
        · simp [NewClientValidated, hMF, ha1, hb1, ha]
        · simp [NewClientValidated, hMF, ha1, hb1, hb]
      · obtain ⟨ha2, hb2⟩ := not_or.mp h2
        by_cases h3 : ((trimQuotes config.siteUUID).length < 28 ∨
            (trimQuotes config.siteUUID).length > 36)
        · refine ⟨"SiteUUID must be between 28 and 36 characters (got " ++
            toString (trimQuotes config.siteUUID).length ++ ")", ?_⟩
          rcases h3 with ha | hb
          · simp [NewClientValidated, hMF, ha1, hb1, ha2, hb2, ha]
          · simp [NewClientValidated, hMF, ha1, hb1, ha2, hb2, hb]
        · exact absurd hband (by tauto)
  · intro config hpk hsk hsu hz
    refine ⟨⟨"https://app.bentonow.com/api/v1", { config with timeout := tenSeconds }⟩,
      { config with timeout := tenSeconds }, ?_, rfl⟩
    simp [NewClient, hpk, hsk, hsu, hz]

/-- C2 counterexample, refuting two clauses of the claim at concrete inputs.
Length clause: the claim says the validated variant fails whenever a
credential's length falls outside 28-36, but `cfgQuoted`'s publishable key
is 37 characters long and validated construction nevertheless succeeds (the
source trims surrounding double quotes before measuring, giving 35).
Timeout clause: the claim says a negative timeout fails with a
ConfigurationError, but on `cfgNegative` construction fails with the plain
"timeout must be non-negative" error, which wraps no sentinel and does not
match `ErrInvalidConfig`. -/
theorem C2_counterexample :
    cfgQuoted.publishableKey.length = 37 ∧
    ¬ (28 ≤ cfgQuoted.publishableKey.length ∧ cfgQuoted.publishableKey.length ≤ 36) ∧
    (NewClientValidated cfgQuoted).isOk = true ∧
    NewClient cfgNegative = .error (.msg "timeout must be non-negative") ∧
    GoError.is (.msg "timeout must be non-negative") .invalidConfig = false ∧
    (.msg "timeout must be non-negative" : GoError) ≠ .sentinel .invalidConfig :=
  ⟨rfl, by decide, rfl, rfl, rfl, by decide⟩

/-- C2 witness: concrete configurations hitting each validation branch. -/
theorem C2_witness :
    NewClient cfgEmpty = .error (.sentinel .invalidConfig) ∧
    NewClient cfgNegative = .error (.msg "timeout must be non-negative") ∧
    (∃ d, NewClientValidated cfgShort = .error (.wrapped .invalidKeyLength d)) ∧
    (∃ cl cfg, NewClient cfgZero = .ok (cl, cfg) ∧ cfg.timeout = tenSeconds) :=
  ⟨(C2_newclient_validation.1 cfgEmpty (Or.inl rfl)).1,
    C2_newclient_validation.2.1 cfgNegative (by decide) (by decide) (by decide) (by decide),
    C2_newclient_validation.2.2.1 cfgShort (by decide) (by decide) (by decide)
      (Or.inl (Or.inl (by decide))),
    C2_newclient_validation.2.2.2 cfgZero (by decide) (by decide) (by decide) rfl⟩

/-- C3: when a batch call (subscriber import, event tracking, subscriber
command) gets a 200 response decoding to a `results`/`failed` envelope, a
positive `failed` count yields the partial-failure error naming both
counts, a zero `failed` count yields success, and (failed counts being
nonnegative) success occurs only when `failed` is zero. -/
theorem C3_nonzero_failed_is_error (c : Client) (tr : Transport BatchEnvelope)
    (env : BatchEnvelope) (htr : ∀ r, tr r = .ok ⟨200, .ok env⟩)
    (ctx : Ctx) (hctx : ctx.err = none)
    (sub : SubscriberInput) (subs : List SubscriberInput)
    (hsubs : firstError validateSubscriberInput (sub :: subs) = none)
    (ev : EventData) (evs : List EventData)
    (hevs : firstError validateEvent (ev :: evs) = none)
    (cmd : CommandData) (cmds : List CommandData)
    (hcmds : firstError validateCommand (cmd :: cmds) = none) :
    (env.failed > 0 →
      c.importSubscribers tr ctx (sub :: subs) =
        (.error (.msg ("import partially failed: " ++ toString env.results ++
          " succeeded, " ++ toString env.failed ++ " failed")), true) ∧
      c.trackEvent tr ctx (ev :: evs) =
        (.error (.msg ("event tracking partially failed: " ++ toString env.results ++
          " succeeded, " ++ toString env.failed ++ " failed")), true) ∧
      c.subscriberCommand tr ctx (cmd :: cmds) =
        (.error (.msg ("command execution partially failed: " ++ toString env.results ++
          " succeeded, " ++ toString env.failed ++ " failed")), true)) ∧
    (env.failed = 0 →
      c.importSubscribers tr ctx (sub :: subs) = (.ok (), true) ∧
      c.trackEvent tr ctx (ev :: evs) = (.ok (), true) ∧
      c.subscriberCommand tr ctx (cmd :: cmds) = (.ok (), true)) ∧
    (0 ≤ env.failed →
      ((c.importSubscribers tr ctx (sub :: subs)).1 = .ok () → env.failed = 0) ∧
      ((c.trackEvent tr ctx (ev :: evs)).1 = .ok () → env.failed = 0) ∧
      ((c.subscriberCommand tr ctx (cmd :: cmds)).1 = .ok () → env.failed = 0)) := by
  have hpos : env.failed > 0 →
      c.importSubscribers tr ctx (sub :: subs) =
        (.error (.msg ("import partially failed: " ++ toString env.results ++
          " succeeded, " ++ toString env.failed ++ " failed")), true) ∧
      c.trackEvent tr ctx (ev :: evs) =
        (.error (.msg ("event tracking partially failed: " ++ toString env.results ++
          " succeeded, " ++ toString env.failed ++ " failed")), true) ∧
      c.subscriberCommand tr ctx (cmd :: cmds) =
        (.error (.msg ("command execution partially failed: " ++ toString env.results ++
          " succeeded, " ++ toString env.failed ++ " failed")), true) := by
    intro hf
    refine ⟨?_, ?_, ?_⟩
    · simp [Client.importSubscribers, hsubs, newRequest, Client.doRequest, hctx, htr, hf]
    · simp [Client.trackEvent, hevs, newRequest, Client.doRequest, hctx, htr, hf]
    · simp [Client.subscriberCommand, hcmds, newRequest, Client.doRequest, hctx, htr, hf]
  have hzero : env.failed = 0 →
      c.importSubscribers tr ctx (sub :: subs) = (.ok (), true) ∧
      c.trackEvent tr ctx (ev :: evs) = (.ok (), true) ∧
      c.subscriberCommand tr ctx (cmd :: cmds) = (.ok (), true) := by
    intro hf
    refine ⟨?_, ?_, ?_⟩
    · simp [Client.importSubscribers, hsubs, newRequest, Client.doRequest, hctx, htr, hf]
    · simp [Client.trackEvent, hevs, newRequest, Client.doRequest, hctx, htr, hf]
    · simp [Client.subscriberCommand, hcmds, newRequest, Client.doRequest, hctx, htr, hf]
  refine ⟨hpos, hzero, ?_⟩
  intro hnn
  refine ⟨?_, ?_, ?_⟩ <;> intro hok <;> by_contra hz
  · have hf : env.failed > 0 := by omega
    rw [(hpos hf).1] at hok
    exact absurd hok (by simp)
  · have hf : env.failed > 0 := by omega
    rw [(hpos hf).2.1] at hok
    exact absurd hok (by simp)
  · have hf : env.failed > 0 := by omega
    rw [(hpos hf).2.2] at hok
    exact absurd hok (by simp)

/-- C3 witness: with a 200 response carrying `results = 2, failed = 5` all
three batch operations report the partial failure; with `failed = 0` they
succeed. -/
theorem C3_witness :
    client0.importSubscribers trBatchPartial ctxLive [subOk] =
      (.error (.msg ("import partially failed: " ++ toString (2 : Int) ++
        " succeeded, " ++ toString (5 : Int) ++ " failed")), true) ∧
    client0.trackEvent trBatchClean ctxLive [evOk] = (.ok (), true) :=
  ⟨((C3_nonzero_failed_is_error client0 trBatchPartial ⟨2, 5⟩ (fun _ => rfl) ctxLive rfl
      subOk [] (by decide) evOk [] (by decide) cmdOk [] (by decide)).1 (by decide)).1,
    ((C3_nonzero_failed_is_error client0 trBatchClean ⟨3, 0⟩ (fun _ => rfl) ctxLive rfl
      subOk [] (by decide) evOk [] (by decide) cmdOk [] (by decide)).2.1 rfl).2.1⟩

/-- C4 (amended): a list of more than 60 emails is rejected locally, before
any network call, with the batch-size error wrapping `ErrInvalidRequest`
(not `ErrInvalidBatchSize`); a list of exactly 60 emails that all pass
per-item validation is accepted and dispatched to the transport. -/
theorem C4_batch_size_cap :
    (∀ (c : Client) (tr : Transport BatchEnvelope) (ctx : Ctx) (emails : List EmailData),
      emails.length > 60 →
      c.createEmails tr ctx emails =
        (.error (.wrapped .invalidRequest "maximum of 60 emails allowed per request"),
          false)) ∧
    (∀ (c : Client) (tr : Transport BatchEnvelope) (ctx : Ctx) (emails : List EmailData),
      emails.length = 60 → firstError validateEmailData emails = none → ctx.err = none →
      (c.createEmails tr ctx emails).2 = true) := by
  constructor
  · intro c tr ctx emails h
    have h0 : ¬ emails.length = 0 := by omega
    simp [Client.createEmails, h0, h]
  · intro c tr ctx emails h60 hval hctx
    have h0 : ¬ emails.length = 0 := by omega
    have hgt : ¬ emails.length > 60 := by omega
    rcases htr : tr (prepareRequest c
        (newRequest ctx "POST" (c.baseURL ++ "/batch/emails") (some "emails"))) with e | resp
    all_goals simp only [newRequest] at htr
    · simp [Client.createEmails, h0, hgt, hval, newRequest, Client.doRequest, hctx, htr]
    · obtain ⟨st, body⟩ := resp
      by_cases hst : st = 200
      · cases body with
        | error e =>
          simp [Client.createEmails, h0, hgt, hval, newRequest, Client.doRequest, hctx,
            htr, hst]
        | ok env =>
          simp [Client.createEmails, h0, hgt, hval, newRequest, Client.doRequest, hctx,
            htr, hst]
      · simp [Client.createEmails, h0, hgt, hval, newRequest, Client.doRequest, hctx,
          htr, hst]

/-- C4 counterexample: 61 individually valid emails are rejected without
dispatch, but with an error wrapping `ErrInvalidRequest`; the error does not
match `ErrInvalidBatchSize`, contradicting the claim's stated error kind. -/
theorem C4_counterexample_error_kind :
    client0.createEmails trBatch0 ctxLive emails61 =
      (.error (.wrapped .invalidRequest "maximum of 60 emails allowed per request"),
        false) ∧
    GoError.is (.wrapped .invalidRequest "maximum of 60 emails allowed per request")
      .invalidBatchSize = false ∧
    GoError.is (.wrapped .invalidRequest "maximum of 60 emails allowed per request")
      .invalidRequest = true :=
  ⟨rfl, rfl, rfl⟩

/-- C4 witness: the cap at the boundary — 61 valid emails rejected locally,
60 valid emails dispatched. -/
theorem C4_witness :
    client0.createEmails trBatchClean ctxLive emails61 =
      (.error (.wrapped .invalidRequest "maximum of 60 emails allowed per request"),
        false) ∧
    (client0.createEmails trBatchClean ctxLive emails60).2 = true :=
  ⟨C4_batch_size_cap.1 client0 trBatchClean ctxLive emails61 (by decide),
    C4_batch_size_cap.2 client0 trBatchClean ctxLive emails60 (by decide) (by decide) rfl⟩

/-- C6: a FindSubscriber response with HTTP 200 that decodes to a record
with an empty id yields the "subscriber not found" error; a nonempty id is
returned as the subscriber. -/
theorem C6_empty_id_is_not_found (c : Client) (tr : Transport SubscriberData)
    (d : SubscriberData) (htr : ∀ r, tr r = .ok ⟨200, .ok d⟩)
    (ctx : Ctx) (hctx : ctx.err = none)
    (email : String) (hemail : parseAddressOk email = true) :
    (d.id = "" → c.findSubscriber tr ctx email =
      (.error (.msg ("subscriber not found: " ++ email)), true)) ∧
    (d.id ≠ "" → c.findSubscriber tr ctx email = (.ok d, true)) := by
  constructor
  · intro hid
    simp [Client.findSubscriber, hemail, newRequest, addQuery, Client.doRequest, hctx,
      htr, hid]
  · intro hid
    simp [Client.findSubscriber, hemail, newRequest, addQuery, Client.doRequest, hctx,
      htr, hid]

/-- C6 witness: an empty-id 200 response reports not-found; a populated
record is returned as decoded. -/
theorem C6_witness :
    client0.findSubscriber trSubEmptyId ctxLive "test@example.com" =
      (.error (.msg ("subscriber not found: " ++ "test@example.com")), true) ∧
    client0.findSubscriber trSubFound ctxLive "test@example.com" = (.ok subFound, true) :=
  ⟨(C6_empty_id_is_not_found client0 trSubEmptyId subEmptyId (fun _ => rfl) ctxLive rfl
      "test@example.com" rfl).1 rfl,
    (C6_empty_id_is_not_found client0 trSubFound subFound (fun _ => rfl) ctxLive rfl
      "test@example.com" rfl).2 (by decide)⟩

/-- C9: CreateEmails never inspects the `failed` field — any 200 response
decoding to a `results`/`failed` envelope yields the decoded results count
with success, whatever `failed` holds. -/
theorem C9_createEmails_ignores_failed (c : Client) (tr : Transport BatchEnvelope)
    (env : BatchEnvelope) (htr : ∀ r, tr r = .ok ⟨200, .ok env⟩)
    (ctx : Ctx) (hctx : ctx.err = none)
    (em : EmailData) (ems : List EmailData)
    (hlen : (em :: ems).length ≤ 60)
    (hval : firstError validateEmailData (em :: ems) = none) :
    c.createEmails tr ctx (em :: ems) = (.ok env.results, true) := by
  have hgt : ems.length ≤ 59 := by
    simp only [List.length_cons] at hlen
    omega
  simp [Client.createEmails, hgt, hval, newRequest, Client.doRequest, hctx, htr]

/-- C9 witness: a 200 response with `results = 2, failed = 5` still makes
CreateEmails return 2 with no error. -/
theorem C9_witness :
    client0.createEmails trBatchPartial ctxLive [emailOk] = (.ok 2, true) :=
  C9_createEmails_ignores_failed client0 trBatchPartial ⟨2, 5⟩ (fun _ => rfl) ctxLive rfl
    emailOk [] (by decide) (by decide)

/-- C10: NewClient writes the 10-second default into the caller's Config
when the timeout is zero — the caller's record afterwards differs from the
one passed in exactly in its timeout field — and the constructed client
holds that same updated record; with a positive timeout the record is left
untouched. -/
theorem C10_newclient_mutates_config (config : Config)
    (hpk : config.publishableKey ≠ "") (hsk : config.secretKey ≠ "")
    (hsu : config.siteUUID ≠ "") :
    (config.timeout = 0 →
      NewClient config = .ok
        (⟨"https://app.bentonow.com/api/v1", { config with timeout := tenSeconds }⟩,
          { config with timeout := tenSeconds }) ∧
      ({ config with timeout := tenSeconds } : Config).timeout = tenSeconds ∧
      ({ config with timeout := tenSeconds } : Config).publishableKey =
        config.publishableKey ∧
      ({ config with timeout := tenSeconds } : Config).secretKey = config.secretKey ∧
      ({ config with timeout := tenSeconds } : Config).siteUUID = config.siteUUID ∧
      ({ config with timeout := tenSeconds } : Config) ≠ config) ∧
    (0 < config.timeout →
      NewClient config = .ok (⟨"https://app.bentonow.com/api/v1", config⟩, config)) := by
  constructor
  · intro hz
    refine ⟨?_, rfl, rfl, rfl, rfl, ?_⟩
    · simp [NewClient, hpk, hsk, hsu, hz]
    · intro he
      have ht : tenSeconds = config.timeout := congrArg Config.timeout he
      rw [hz] at ht
      exact absurd ht (by decide)
  · intro hpos
    have hneg : ¬ config.timeout < 0 := by omega
    have hz : ¬ config.timeout = 0 := by omega
    simp [NewClient, hpk, hsk, hsu, hneg, hz]

/-- C10 witness: with the zero-timeout fixture config, the caller's record
comes back with the 10-second default and the client stores it. -/
theorem C10_witness :
    NewClient cfgZero = .ok
      (⟨"https://app.bentonow.com/api/v1", { cfgZero with timeout := tenSeconds }⟩,
        { cfgZero with timeout := tenSeconds }) ∧
    ({ cfgZero with timeout := tenSeconds } : Config).timeout = tenSeconds ∧
    ({ cfgZero with timeout := tenSeconds } : Config).publishableKey =
      cfgZero.publishableKey ∧
    ({ cfgZero with timeout := tenSeconds } : Config).secretKey = cfgZero.secretKey ∧
    ({ cfgZero with timeout := tenSeconds } : Config).siteUUID = cfgZero.siteUUID ∧
    ({ cfgZero with timeout := tenSeconds } : Config) ≠ cfgZero :=
  (C10_newclient_mutates_config cfgZero (by decide) (by decide) (by decide)).1 rfl
